import Mathlib

/-!
Shallow embedding of src/tool.py from owui-currency-tool.

The module defines a two-valued conversion direction, a configuration
object (Valves) with one string field default_currency defaulting to the
empty string, and a single operation Tools.convert that resolves source
and target currency codes, constructs an external CurrencyConverter and
delegates the numeric conversion to it.

Modelling notes:
- Python floats are modelled as Rat; the external CurrencyConverter is
  modelled as a Provider record of two oracles: one for construction
  (which may fail with an exception text) and one for the convert call
  (which may fail with an exception text or return a number).
- The Python function returns heterogeneous values: a str on the error
  paths and, as written, the raw float from the provider on the success
  path.  PyVal records which of the two kinds of value is returned.
- Every call threads an explicit event trace recording each provider
  construction and each provider convert call, so that claims about
  which provider is constructed and which codes are forwarded are
  statable.  The configuration object is threaded through and returned,
  so that frame claims about it are statable.
- The source passes SINGLE_DAY_ECB_URL to the constructor when no date
  is given, and passes the date object itself when a date is given; it
  imports ECB_URL but never uses it.  CtorArg records exactly which
  value the constructor receives.
-/

namespace OwuiCurrency

/-- Calendar dates, abstract: an opaque day identifier. -/
abbrev Date := Nat

/-- Direction enum from src/tool.py lines 18-24. -/
inductive Direction
  | a_to_b
  | b_to_a
deriving DecidableEq

/-- The first argument the code can hand to the CurrencyConverter
constructor: the single-day feed URL, the full historical feed URL
(imported as ECB_URL on line 11 but never used), or a date value. -/
inductive CtorArg
  | singleDayUrl
  | ecbUrl
  | dateArg (d : Date)
deriving DecidableEq

/-- Valves from src/tool.py lines 38-51: one field, default empty. -/
structure Valves where
  default_currency : String
deriving DecidableEq

/-- Tools from src/tool.py line 27: holds the valves. -/
structure Tools where
  valves : Valves
deriving DecidableEq

/-- Tools constructor, src/tool.py lines 53-61: fresh Valves, whose
default_currency field defaults to the empty string (line 48-49). -/
def Tools.init : Tools := ⟨⟨""⟩⟩

/-- Operator assignment to the configuration field.  The Valves model
declares no validator and no constraint on the field (src/tool.py lines
48-51), so assignment stores any string as given. -/
def Tools.setDefaultCurrency (t : Tools) (s : String) : Tools :=
  { t with valves := { default_currency := s } }

/-- The external CurrencyConverter, as a pair of oracles: construction
and conversion, each returning either an exception text or a value. -/
structure Provider where
  ctor : CtorArg → Except String Unit
  conv : CtorArg → Rat → String → String → Option Date → Except String Rat

/-- A Python value returned by convert: either a str or a raw float. -/
inductive PyVal
  | vStr (s : String)
  | vFloat (q : Rat)
deriving DecidableEq

/-- Whether a returned value is a Python str. -/
def PyVal.isStr : PyVal → Bool
  | .vStr _ => true
  | .vFloat _ => false

/-- Trace events: a provider construction, or a provider convert call
with the amount, source code, target code and optional date passed. -/
inductive Event
  | ctorCall (arg : CtorArg)
  | convCall (arg : CtorArg) (amount : Rat) (source_code target_code : String)
      (d : Option Date)
deriving DecidableEq

/-- Error string from src/tool.py line 90. -/
def noDefaultErr : String :=
  "Error: No default currency set. Either set a default currency or specify two currency codes."

/-- Error header from src/tool.py lines 100-101 (47 equals signs). -/
def ctorErrHeader : String :=
  "Error: Problem initializing conversion utility.\n===============================================\n"

/-- Error header from src/tool.py lines 118-119 (35 equals signs). -/
def convErrHeader : String :=
  "Error: Problem converting currency.\n===================================\n"

/-- Which value the constructor receives, src/tool.py lines 94-97:
the single-day URL when date is None, else the date itself. -/
def ctorArgOf : Option Date → CtorArg
  | none => .singleDayUrl
  | some d => .dateArg d

/-- source_code from direction, src/tool.py lines 105-110. -/
def sourceOf : Direction → String → String → String
  | .a_to_b, a, _ => a
  | .b_to_a, _, b => b

/-- target_code from direction, src/tool.py lines 105-110. -/
def targetOf : Direction → String → String → String
  | .a_to_b, _, b => b
  | .b_to_a, a, _ => a

/-- The body of convert after the b_currency_code resolution,
src/tool.py lines 92-120: construct the converter (lines 93-102),
resolve source and target codes (lines 103-110), delegate the
conversion (lines 111-119).  Returns the Python value and the trace of
provider events. -/
def convertResolved (p : Provider) (direction : Direction) (source_amount : Rat)
    (a_currency_code b_currency_code : String) (date : Option Date) :
    PyVal × List Event :=
  let arg := ctorArgOf date
  match p.ctor arg with
  | .error e => (.vStr (ctorErrHeader ++ e), [.ctorCall arg])
  | .ok _ =>
    let source_code := sourceOf direction a_currency_code b_currency_code
    let target_code := targetOf direction a_currency_code b_currency_code
    match p.conv arg source_amount source_code target_code date with
    | .ok q =>
      (.vFloat q,
       [.ctorCall arg, .convCall arg source_amount source_code target_code date])
    | .error e =>
      (.vStr (convErrHeader ++ e),
       [.ctorCall arg, .convCall arg source_amount source_code target_code date])

/-- Tools.convert, src/tool.py lines 63-120.  If b_currency_code is
None it is substituted from the configuration, or the call fails with
the no-default error before any provider is constructed (lines 88-91).
The returned triple is the Python return value, the provider event
trace, and the configuration object after the call. -/
def Tools.convert (t : Tools) (p : Provider) (direction : Direction)
    (source_amount : Rat) (a_currency_code : String)
    (b_currency_code : Option String) (date : Option Date) :
    PyVal × List Event × Tools :=
  match b_currency_code with
  | none =>
    if t.valves.default_currency = "" then
      (.vStr noDefaultErr, [], t)
    else
      let r := convertResolved p direction source_amount a_currency_code
        t.valves.default_currency date
      (r.1, r.2, t)
  | some b =>
    let r := convertResolved p direction source_amount a_currency_code b date
    (r.1, r.2, t)

/-- The resolved b currency code, per src/tool.py lines 88-91. -/
def resolvedB (t : Tools) : Option String → Option String
  | none => if t.valves.default_currency = "" then none else some t.valves.default_currency
  | some b => some b

/-- A stub provider: construction always succeeds and every conversion
returns the fixed rate result q. -/
def stubProvider (q : Rat) : Provider :=
  ⟨fun _ => .ok (), fun _ _ _ _ _ => .ok q⟩

/-- A stub provider whose construction fails with exception text e. -/
def failCtorProvider (e : String) : Provider :=
  ⟨fun _ => .error e, fun _ _ _ _ _ => .ok 0⟩

/-- A stub provider whose construction succeeds and whose conversion
fails with exception text e. -/
def failConvProvider (e : String) : Provider :=
  ⟨fun _ => .ok (), fun _ _ _ _ _ => .error e⟩

/-- A stub provider applying the exact invertible rate r between the
currency pair M and N: amount times r from M to N, amount divided by r
from N to M, failure on any other pair. -/
def exactProvider (r : Rat) (M N : String) : Provider :=
  ⟨fun _ => .ok (), fun _ amt src tgt _ =>
    if src = M ∧ tgt = N then .ok (amt * r)
    else if src = N ∧ tgt = M then .ok (amt / r)
    else .error "unknown currency pair"⟩

/-- Associativity of string concatenation, via the underlying data. -/
theorem strAppendAssoc (a b c : String) : a ++ b ++ c = a ++ (b ++ c) := by
  apply String.ext
  simp [String.data_append]

/-- The tail of the constructor-failure header after the Error: mark. -/
def ctorErrTail : String :=
  " Problem initializing conversion utility.\n===============================================\n"

/-- The tail of the conversion-failure header after the Error: mark. -/
def convErrTail : String :=
  " Problem converting currency.\n===================================\n"

theorem ctorErrHeaderSplit : ctorErrHeader = "Error:" ++ ctorErrTail := rfl

theorem convErrHeaderSplit : convErrHeader = "Error:" ++ convErrTail := rfl

/-- Shared helper: when the resolved b code is b and construction
succeeds, the provider event trace of convert is a construction with
the argument determined by the date, followed by one convert call with
the direction-resolved source and target codes and the same date. -/
theorem convert_trace_eq (t : Tools) (p : Provider) (dir : Direction)
    (amt : Rat) (a b : String) (bOpt : Option String) (date : Option Date)
    (hb : resolvedB t bOpt = some b) (hc : p.ctor (ctorArgOf date) = .ok ()) :
    (t.convert p dir amt a bOpt date).2.1
      = [.ctorCall (ctorArgOf date),
         .convCall (ctorArgOf date) amt (sourceOf dir a b) (targetOf dir a b) date] := by
  have trace : (convertResolved p dir amt a b date).2
      = [.ctorCall (ctorArgOf date),
         .convCall (ctorArgOf date) amt (sourceOf dir a b) (targetOf dir a b) date] := by
    simp only [convertResolved, hc]
    cases h2 : p.conv (ctorArgOf date) amt (sourceOf dir a b) (targetOf dir a b) date <;>
      simp [h2]
  cases bOpt with
  | some b0 =>
    have hb0 : b0 = b := by simpa [resolvedB] using hb
    subst hb0
    simpa [Tools.convert] using trace
  | none =>
    by_cases hd : t.valves.default_currency = ""
    · simp [resolvedB, hd] at hb
    · have hbd : t.valves.default_currency = b := by simpa [resolvedB, hd] using hb
      rw [show t.convert p dir amt a none date
            = ((convertResolved p dir amt a t.valves.default_currency date).1,
               (convertResolved p dir amt a t.valves.default_currency date).2, t) by
          simp [Tools.convert, hd]]
      rw [hbd]
      exact trace

/-- Shared helper: when the resolved b code is b, convert is the body
convertResolved together with the unchanged configuration object. -/
theorem convert_resolved_eq (t : Tools) (p : Provider) (dir : Direction)
    (amt : Rat) (a b : String) (bOpt : Option String) (date : Option Date)
    (hb : resolvedB t bOpt = some b) :
    t.convert p dir amt a bOpt date
      = ((convertResolved p dir amt a b date).1,
         (convertResolved p dir amt a b date).2, t) := by
  cases bOpt with
  | some b0 =>
    have hb0 : b0 = b := by simpa [resolvedB] using hb
    subst hb0
    rfl
  | none =>
    by_cases hd : t.valves.default_currency = ""
    · simp [resolvedB, hd] at hb
    · have hbd : t.valves.default_currency = b := by simpa [resolvedB, hd] using hb
      rw [← hbd]
      simp [Tools.convert, hd]

/-- Claim C1: the spec says the success path returns a string rendering
of the numeric result, and the function is annotated as returning str;
as written the code returns the raw float from the provider with no
str conversion.  At default currency USD, amount 100 EUR, a stub
provider returning 108 with no date, the returned value is the float
108 and is not a Python str. -/
theorem c1_success_value_is_raw_float :
    ((Tools.init.setDefaultCurrency "USD").convert (stubProvider 108) .a_to_b
        100 "EUR" none none).1 = .vFloat 108 ∧
    (((Tools.init.setDefaultCurrency "USD").convert (stubProvider 108) .a_to_b
        100 "EUR" none none).1).isStr = false :=
  ⟨rfl, rfl⟩

/-- Claim C2: the spec says a call with a date binds the provider to
the full historical feed; as written the code passes the date value
itself to the constructor (ECB_URL is imported but never used).  With
date 5 the construction event carries the date value, which is neither
the historical-feed URL nor the single-day URL; the convert call does
forward the same date unchanged. -/
theorem c2_date_constructor_receives_date :
    (Tools.init.convert (stubProvider 108) .a_to_b 100 "EUR" (some "USD")
        (some 5)).2.1
      = [.ctorCall (.dateArg 5), .convCall (.dateArg 5) 100 "EUR" "USD" (some 5)] ∧
    CtorArg.dateArg 5 ≠ CtorArg.ecbUrl ∧ CtorArg.dateArg 5 ≠ CtorArg.singleDayUrl :=
  ⟨rfl, by decide, by decide⟩

/-- Claim C3: when b_currency_code is absent and the configured default
currency is empty, convert returns exactly the no-default error string,
the provider event trace is empty (no provider is constructed), and the
configuration is unchanged. -/
theorem c3_no_default_yields_error_without_provider (t : Tools) (p : Provider)
    (direction : Direction) (source_amount : Rat) (a_currency_code : String)
    (date : Option Date) (h : t.valves.default_currency = "") :
    t.convert p direction source_amount a_currency_code none date
      = (.vStr noDefaultErr, [], t) := by
  simp [Tools.convert, h]

/-- Witness for claim C3 at a fresh Tools with a stub provider. -/
theorem c3_witness :
    Tools.init.valves.default_currency = "" ∧
    Tools.init.convert (stubProvider 1) .a_to_b 100 "EUR" none none
      = (.vStr noDefaultErr, [], Tools.init) :=
  ⟨rfl, c3_no_default_yields_error_without_provider Tools.init (stubProvider 1)
    .a_to_b 100 "EUR" none rfl⟩

/-- Claim C4: when the call reaches the conversion step (construction
succeeded), direction a_to_b passes the a code as source and the
resolved b code as target to the provider, and direction b_to_a passes
the resolved b code as source and the a code as target. -/
theorem c4_direction_source_target (t : Tools) (p : Provider) (amt : Rat)
    (a b : String) (bOpt : Option String) (date : Option Date)
    (hb : resolvedB t bOpt = some b) (hc : p.ctor (ctorArgOf date) = .ok ()) :
    (t.convert p .a_to_b amt a bOpt date).2.1
      = [.ctorCall (ctorArgOf date), .convCall (ctorArgOf date) amt a b date] ∧
    (t.convert p .b_to_a amt a bOpt date).2.1
      = [.ctorCall (ctorArgOf date), .convCall (ctorArgOf date) amt b a date] :=
  ⟨convert_trace_eq t p .a_to_b amt a b bOpt date hb hc,
   convert_trace_eq t p .b_to_a amt a b bOpt date hb hc⟩

/-- Witness for claim C4 with a stub provider recording the codes. -/
theorem c4_witness :
    (Tools.init.convert (stubProvider 2) .a_to_b 100 "EUR" (some "USD") none).2.1
      = [.ctorCall .singleDayUrl, .convCall .singleDayUrl 100 "EUR" "USD" none] ∧
    (Tools.init.convert (stubProvider 2) .b_to_a 100 "EUR" (some "USD") none).2.1
      = [.ctorCall .singleDayUrl, .convCall .singleDayUrl 100 "USD" "EUR" none] :=
  c4_direction_source_target Tools.init (stubProvider 2) 100 "EUR" "USD"
    (some "USD") none rfl rfl

/-- Claim C5: a provider construction failure with exception text e, or
a provider conversion failure with exception text e, each make convert
return a string that starts with the Error: mark and contains e; the
embedding of convert is a total function, so no exception reaches the
caller. -/
theorem c5_failures_return_error_strings (t : Tools) (p : Provider)
    (dir : Direction) (amt : Rat) (a b : String) (bOpt : Option String)
    (date : Option Date) (e : String) (hb : resolvedB t bOpt = some b) :
    (p.ctor (ctorArgOf date) = .error e →
      ∃ mid, (t.convert p dir amt a bOpt date).1
        = .vStr ("Error:" ++ (mid ++ e))) ∧
    (p.ctor (ctorArgOf date) = .ok () →
      p.conv (ctorArgOf date) amt (sourceOf dir a b) (targetOf dir a b) date
        = .error e →
      ∃ mid, (t.convert p dir amt a bOpt date).1
        = .vStr ("Error:" ++ (mid ++ e))) := by
  rw [convert_resolved_eq t p dir amt a b bOpt date hb]
  constructor
  · intro hc
    refine ⟨ctorErrTail, ?_⟩
    simp only [convertResolved, hc]
    rw [← strAppendAssoc, ← ctorErrHeaderSplit]
  · intro hc hv
    refine ⟨convErrTail, ?_⟩
    simp only [convertResolved, hc, hv]
    rw [← strAppendAssoc, ← convErrHeaderSplit]

/-- Witness for claim C5: one provider failing at construction and one
failing at conversion, each with a concrete exception text. -/
theorem c5_witness :
    (∃ mid, (Tools.init.convert (failCtorProvider "feed unreachable") .a_to_b
        100 "EUR" (some "USD") none).1
      = .vStr ("Error:" ++ (mid ++ "feed unreachable"))) ∧
    (∃ mid, (Tools.init.convert (failConvProvider "unknown code") .a_to_b
        100 "EUR" (some "USD") none).1
      = .vStr ("Error:" ++ (mid ++ "unknown code"))) :=
  ⟨(c5_failures_return_error_strings Tools.init (failCtorProvider "feed unreachable")
      .a_to_b 100 "EUR" "USD" (some "USD") none "feed unreachable" rfl).1 rfl,
   (c5_failures_return_error_strings Tools.init (failConvProvider "unknown code")
      .a_to_b 100 "EUR" "USD" (some "USD") none "unknown code" rfl).2 rfl rfl⟩

/-- Claim C6: with a provider applying the exact invertible rate r
between the distinct pair M and N, converting X from M to N and then
converting the result back from N to M with the same date returns X
exactly (rational arithmetic is exact, so no rounding slack is
needed). -/
theorem c6_round_trip (t : Tools) (M N : String) (r X : Rat) (d : Option Date)
    (hr : r ≠ 0) (hMN : M ≠ N) :
    (t.convert (exactProvider r M N) .a_to_b X M (some N) d).1 = .vFloat (X * r) ∧
    (t.convert (exactProvider r M N) .a_to_b (X * r) N (some M) d).1 = .vFloat X := by
  constructor
  · rw [convert_resolved_eq t (exactProvider r M N) .a_to_b X M N (some N) d rfl]
    simp [convertResolved, exactProvider, sourceOf, targetOf]
  · rw [convert_resolved_eq t (exactProvider r M N) .a_to_b (X * r) N M (some M) d rfl]
    simp [convertResolved, exactProvider, sourceOf, targetOf, hMN, Ne.symm hMN,
      mul_div_cancel_right₀, hr]

/-- Witness for claim C6 at rate 2 between EUR and USD, amount 100. -/
theorem c6_witness :
    (Tools.init.convert (exactProvider 2 "EUR" "USD") .a_to_b 100 "EUR"
        (some "USD") none).1 = .vFloat (100 * 2) ∧
    (Tools.init.convert (exactProvider 2 "EUR" "USD") .a_to_b (100 * 2) "USD"
        (some "EUR") none).1 = .vFloat 100 :=
  c6_round_trip Tools.init "EUR" "USD" 2 100 none (by norm_num) (by decide)

/-- Claim C7: a freshly instantiated Tools has an empty default
currency, and assignment stores any string unvalidated. -/
theorem c7_fresh_default_empty_assignment_unvalidated :
    Tools.init.valves.default_currency = "" ∧
    ∀ (t : Tools) (s : String), (t.setDefaultCurrency s).valves.default_currency = s :=
  ⟨rfl, fun _ _ => rfl⟩

/-- Claim C8: on every path of convert, the configuration returned
after the call carries the same default currency as before the call. -/
theorem c8_convert_preserves_default_currency (t : Tools) (p : Provider)
    (dir : Direction) (amt : Rat) (a : String) (bOpt : Option String)
    (date : Option Date) :
    (t.convert p dir amt a bOpt date).2.2.valves.default_currency
      = t.valves.default_currency := by
  cases bOpt with
  | none =>
    by_cases hd : t.valves.default_currency = "" <;> simp [Tools.convert, hd]
  | some b => rfl

/-- Claim C9: when b_currency_code is supplied as the empty string, the
default-currency substitution and the missing-default error are both
skipped: the trace shows a provider construction and a convert call in
which the empty string itself is the direction-resolved code, for every
configured default currency. -/
theorem c9_empty_b_code_forwarded (t : Tools) (p : Provider) (dir : Direction)
    (amt : Rat) (a : String) (date : Option Date)
    (hc : p.ctor (ctorArgOf date) = .ok ()) :
    (t.convert p dir amt a (some "") date).2.1
      = [.ctorCall (ctorArgOf date),
         .convCall (ctorArgOf date) amt (sourceOf dir a "") (targetOf dir a "") date] :=
  convert_trace_eq t p dir amt a "" (some "") date rfl hc

/-- Witness for claim C9 with a configured default currency USD. -/
theorem c9_witness :
    ((Tools.init.setDefaultCurrency "USD").convert (stubProvider 3) .a_to_b
        100 "EUR" (some "") none).2.1
      = [.ctorCall .singleDayUrl, .convCall .singleDayUrl 100 "EUR" "" none] :=
  c9_empty_b_code_forwarded (Tools.init.setDefaultCurrency "USD") (stubProvider 3)
    .a_to_b 100 "EUR" none rfl

/-- Claim C10: when b_currency_code is supplied, the returned value and
the provider event trace do not depend on the configured default
currency: two configurations give identical results. -/
theorem c10_result_independent_of_default (t₁ t₂ : Tools) (p : Provider)
    (dir : Direction) (amt : Rat) (a b : String) (date : Option Date) :
    (t₁.convert p dir amt a (some b) date).1
      = (t₂.convert p dir amt a (some b) date).1 ∧
    (t₁.convert p dir amt a (some b) date).2.1
      = (t₂.convert p dir amt a (some b) date).2.1 :=
  ⟨rfl, rfl⟩

end OwuiCurrency
